import Mathlib

/-!
Verification development for the Task-MGMT repository.

Shallow embedding of the backend's task workflow, user update, login/lockout
and audit-log logic, translated from:
  * `backend/models/Task.js` (task schema, `pre('save')` hook, `updateStatus`)
  * `backend/models/User.js` (`isLocked`, `incLoginAttempts`, `resetLoginAttempts`)
  * `backend/models/AuditLog.js` (schema validation, `logAction`, `getSecurityLogs`)
  * `backend/routes/tasks.js` (`PUT /api/tasks/:id`, `PUT /api/tasks/:id/status`)
  * `backend/routes/users.js` (`PUT /api/users/:id`)
  * `backend/routes/auth.js` (`POST /api/auth/login`)
  * `backend/routes/audit.js` (`GET /api/audit/security`, `DELETE /api/audit/logs/cleanup`)

Times are modelled as milliseconds since the epoch (`Nat`, coerced to `Int`
where the JavaScript subtracts dates).  Database identifiers are `Nat`.
-/

namespace TaskMgmt

abbrev UserId := Nat

/-- `User.role` enum from the user schema: `['super_admin', 'manager', 'employee']`. -/
inductive Role where
  | super_admin
  | manager
  | employee
deriving DecidableEq

/-- `Task.status` enum from the task schema:
`['pending', 'in_progress', 'completed', 'approved', 'rejected']`. -/
inductive TaskStatus where
  | pending
  | in_progress
  | completed
  | approved
  | rejected
deriving DecidableEq

/-- `Task.priority` enum: `['low', 'medium', 'high', 'urgent']`. -/
inductive Priority where
  | low
  | medium
  | high
  | urgent
deriving DecidableEq

/-- The authenticated caller (`req.user`) as the routes consume it. -/
structure Actor where
  id : UserId
  role : Role
  name : String := ""
deriving DecidableEq

/-- One element of `Task.statusHistory`. -/
structure StatusChange where
  status : TaskStatus
  changedBy : UserId
  changedAt : Nat
  comment : Option String
deriving DecidableEq

/-- The `Task` document (fields used by the routes under verification).
`assignedToManagerId` is the `managerId` of the populated `assignedTo` user,
which the routes read as `task.assignedTo.managerId`. -/
structure Task where
  title : String := ""
  description : String := ""
  priority : Priority := .medium
  status : TaskStatus := .pending
  assignedBy : UserId
  assignedTo : UserId
  assignedToManagerId : Option UserId := none
  deadline : Nat := 0
  completedAt : Option Nat := none
  approvedAt : Option Nat := none
  approvedBy : Option UserId := none
  estimatedHours : Option Nat := none
  actualHours : Option Nat := none
  tags : List String := []
  statusHistory : List StatusChange := []
  rejectionReason : Option String := none
deriving DecidableEq

/-- `taskSchema.methods.updateStatus` (Task.js) followed by the `pre('save')`
hook that runs on the subsequent `save()`.  The method records the actor and
comment, sets the new status, and on target `approved` unconditionally stamps
`approvedBy`/`approvedAt`.  The hook then appends a `statusHistory` entry when
the status actually changed (Mongoose marks the path modified only when the
assigned value differs), sets `completedAt` on a change to `completed` when it
is still null, and sets `approvedAt` on a change to `approved` when it is
still null. -/
def Task.updateStatus (t : Task) (newStatus : TaskStatus) (changedBy : UserId)
    (comment : Option String) (now : Nat) : Task :=
  let statusModified : Bool := !(t.status == newStatus)
  let t1 : Task :=
    if newStatus == .approved then
      { t with status := newStatus, approvedBy := some changedBy, approvedAt := some now }
    else
      { t with status := newStatus }
  let t2 : Task :=
    if statusModified then
      { t1 with statusHistory := t1.statusHistory ++
          [{ status := newStatus, changedBy := changedBy, changedAt := now, comment := comment }] }
    else t1
  let t3 : Task :=
    if statusModified && newStatus == .completed && t2.completedAt.isNone then
      { t2 with completedAt := some now }
    else t2
  if statusModified && newStatus == .approved && t3.approvedAt.isNone then
    { t3 with approvedAt := some now }
  else t3

/-- Permission switch of `PUT /api/tasks/:id/status` (tasks.js 491-510): the
allowed-actor set depends only on the requested target status, never on the
task's current status. -/
def hasStatusPermission (user : Actor) (task : Task) (status : TaskStatus) : Bool :=
  match status with
  | .in_progress => task.assignedTo == user.id
  | .completed => task.assignedTo == user.id
  | .approved =>
      user.role == .super_admin || task.assignedBy == user.id ||
        (user.role == .manager && task.assignedToManagerId == some user.id)
  | .rejected =>
      user.role == .super_admin || task.assignedBy == user.id ||
        (user.role == .manager && task.assignedToManagerId == some user.id)
  | .pending =>
      user.role == .super_admin || task.assignedBy == user.id ||
        task.assignedTo == user.id ||
        (user.role == .manager && task.assignedToManagerId == some user.id)

/-- Outcome of `PUT /api/tasks/:id/status`. -/
inductive StatusRouteResult where
  | validationFailed
  | notFound
  | permissionDenied
  | ok (task : Task)
deriving DecidableEq

def StatusRouteResult.isOk : StatusRouteResult → Bool
  | .ok _ => true
  | _ => false

def StatusRouteResult.resultTask : StatusRouteResult → Option Task
  | .ok t => some t
  | _ => none

/-- express-validator `optional().trim().isLength({ max: n })`: an absent field
passes, a present one must have (trimmed) length at most `n`. -/
def optLenLe (s : Option String) (n : Nat) : Bool :=
  match s with
  | none => true
  | some s => decide (s.length ≤ n)

/-- JavaScript truthiness of an optional string (`undefined` and `''` are falsy). -/
def optTruthy (s : Option String) : Bool :=
  match s with
  | none => false
  | some s => !(s == "")

/-- `PUT /api/tasks/:id/status` (tasks.js 451-524).  Validation first (status
is enum-checked, which the `TaskStatus` type already enforces; comment and
rejection reason are trimmed and length-checked), then 404 on a missing task,
then the target-status permission switch, then
`if (status === 'rejected' && rejectionReason) task.rejectionReason = rejectionReason`
followed by `task.updateStatus(status, req.user._id, comment)`.  The current
status is never consulted and no missing-reason check exists. -/
def updateTaskStatusRoute (user : Actor) (task? : Option Task) (status : TaskStatus)
    (comment0 rejectionReason0 : Option String) (now : Nat) : StatusRouteResult :=
  let comment := comment0.map String.trim
  let rejectionReason := rejectionReason0.map String.trim
  if !(optLenLe comment 200 && optLenLe rejectionReason 500) then .validationFailed
  else
    match task? with
    | none => .notFound
    | some task =>
      if !hasStatusPermission user task status then .permissionDenied
      else
        let task :=
          if status == .rejected && optTruthy rejectionReason then
            { task with rejectionReason := rejectionReason }
          else task
        .ok (task.updateStatus status user.id comment now)

/-- `AuditLog.severity` enum: `['low', 'medium', 'high', 'critical']`. -/
inductive Severity where
  | low
  | medium
  | high
  | critical
deriving DecidableEq

/-- `AuditLog.category` enum: `['security', 'data', 'system', 'user_action']`. -/
inductive Category where
  | security
  | data
  | system
  | user_action
deriving DecidableEq

/-- The `action` enum of the audit-log schema (AuditLog.js 12-36).  Actions are
kept as strings because route code builds them by interpolation
(`action: ` followed by a template string over the task status) and may produce
values outside this enum. -/
def auditActionEnum : List String :=
  ["login", "logout", "failed_login", "password_change",
   "user_created", "user_updated", "user_deleted",
   "task_created", "task_updated", "task_deleted", "task_assigned",
   "task_completed", "task_approved", "task_rejected",
   "comment_added", "attachment_uploaded", "notification_sent",
   "report_generated", "role_changed", "team_updated",
   "settings_changed", "data_export", "system_access"]

/-- The `resource` enum of the audit-log schema. -/
def auditResourceEnum : List String :=
  ["user", "task", "notification", "report", "system", "auth"]

/-- An `AuditLog` document.  `user` is optional because route code passes
`user: null` in some branches; the schema declares the field `required`.
`details` is the free-form Mixed payload, modelled as key/value strings. -/
structure AuditEntry where
  user : Option UserId
  action : String
  resource : String
  resourceId : Option Nat := none
  details : List (String × String) := []
  ipAddress : String
  success : Bool := true
  severity : Severity := .low
  category : Category := .user_action
  createdAt : Nat
deriving DecidableEq

/-- Mongoose validation run by `save()` on an audit document: `user`,
`action`, `resource` and `ipAddress` are `required` (a null reference or an
empty string fails), and `action`/`resource` must belong to their enums.
`severity` and `category` are enum-checked by the types. -/
def validEntry (e : AuditEntry) : Bool :=
  e.user.isSome && auditActionEnum.contains e.action &&
    auditResourceEnum.contains e.resource && !(e.ipAddress == "")

/-- `auditLogSchema.statics.logAction` (AuditLog.js 98-109): construct the
document and `save()` it; any failure (schema validation or the database
write, modelled by `dbOk`) is caught, and `null` is returned instead of
propagating the error.  Returns the updated stored collection and the
value `logAction` hands back to its caller. -/
def logAction (logs : List AuditEntry) (e : AuditEntry) (dbOk : Bool) :
    List AuditEntry × Option AuditEntry :=
  if validEntry e && dbOk then (logs ++ [e], some e) else (logs, none)

/-- Actions the security queries treat as security-relevant. -/
def securityActionList : List String :=
  ["login", "logout", "failed_login", "password_change"]

/-- Filter of `auditLogSchema.statics.getSecurityLogs` (AuditLog.js 128-139):
a three-way `$or` over category, action and success.  No severity clause. -/
def getSecurityLogsPred (e : AuditEntry) : Bool :=
  e.category == .security || securityActionList.contains e.action || e.success == false

/-- `getSecurityLogs` as a set-level query (the `sort`/`limit` presentation of
the static is not modelled; the claim under verification is about which
entries match). -/
def getSecurityLogsFilter (logs : List AuditEntry) : List AuditEntry :=
  logs.filter getSecurityLogsPred

/-- Filter of `GET /api/audit/security` (audit.js 189-211): the four-way `$or`
(category, action, success, severity) conjoined with
`createdAt: { $gte: since }` where `since = now - hours * 3600000`. -/
def securityRoutePred (since : Int) (e : AuditEntry) : Bool :=
  (e.category == .security || securityActionList.contains e.action ||
      e.success == false || e.severity == .high || e.severity == .critical) &&
    decide (since ≤ (e.createdAt : Int))

/-- The find query of `GET /api/audit/security` as a set-level query.  The
route defaults `hours` to 24 and additionally paginates (`skip`/`limit`) and
sorts newest first; pagination and ordering are presentation and not part of
the membership question modelled here. -/
def securityLogsQuery (hours : Nat) (now : Int) (logs : List AuditEntry) : List AuditEntry :=
  logs.filter (securityRoutePred (now - hours * 3600000))

/-- The four-way disjunction exactly as the specification states it
(spec §4.3): category = security OR action in the login family OR
success = false OR severity in high/critical.  Spec-side definition used to
compare the code's queries against the claim. -/
def securityRelevantSpec (e : AuditEntry) : Bool :=
  e.category == .security || securityActionList.contains e.action ||
    e.success == false || e.severity == .high || e.severity == .critical

/-- Deletion predicate of `DELETE /api/audit/logs/cleanup` (audit.js 604-613):
`createdAt < cutoffDate` and severity not in high/critical. -/
def delEntry (cutoff : Int) (e : AuditEntry) : Bool :=
  decide ((e.createdAt : Int) < cutoff) && !(e.severity == .high || e.severity == .critical)

/-- An entry survives the cleanup iff it does not match the deletion filter. -/
def keepEntry (cutoff : Int) (e : AuditEntry) : Bool :=
  !(delEntry cutoff e)

/-- Query validation of the cleanup route:
`query('days').optional().isInt({ min: 30, max: 365 })`. -/
def cleanupValidDays : Option Nat → Bool
  | none => true
  | some d => decide (30 ≤ d) && decide (d ≤ 365)

/-- The audit entry the cleanup route writes about itself (audit.js 616-630). -/
def cleanupAuditEntry (actorId : UserId) (cutoff : Int) (deletedCount : Nat)
    (days : Nat) (ip : String) (now : Nat) : AuditEntry :=
  { user := some actorId
    action := "data_export"
    resource := "system"
    details := [("action", "audit_log_cleanup"), ("cutoffDate", toString cutoff),
                ("logsDeleted", toString deletedCount), ("retentionDays", toString days)]
    ipAddress := ip
    severity := .medium
    category := .system
    createdAt := now }

/-- Outcome of `DELETE /api/audit/logs/cleanup`. -/
inductive CleanupResult where
  | validationFailed
  | ok (deletedCount : Nat) (retentionDays : Nat)
deriving DecidableEq

/-- `DELETE /api/audit/logs/cleanup` (audit.js 582-649): validate `days`
(min 30, max 365; default 90 when absent), compute
`cutoffDate = now - days * 86400000`, count and delete every entry older than
the cutoff whose severity is not high/critical, then append one audit entry
describing the cleanup through `logAction` (whose own failure, `dbOk = false`,
is swallowed). -/
def auditCleanupRoute (actorId : UserId) (days? : Option Nat) (ip : String) (now : Nat)
    (logs : List AuditEntry) (dbOk : Bool) : CleanupResult × List AuditEntry :=
  if !cleanupValidDays days? then (.validationFailed, logs)
  else
    let days := days?.getD 90
    let cutoff : Int := (now : Int) - (days : Int) * 86400000
    let deletedCount := (logs.filter (delEntry cutoff)).length
    let remaining := logs.filter (keepEntry cutoff)
    let logs2 := (logAction remaining (cleanupAuditEntry actorId cutoff deletedCount days ip now) dbOk).1
    (.ok deletedCount days, logs2)

/-- `notificationSettings` sub-document of the user schema. -/
structure NotifPrefs where
  taskAssignments : Bool := true
  taskUpdates : Bool := true
  taskApprovals : Bool := true
  systemNotifications : Bool := true
deriving DecidableEq

/-- A `User` document (fields used by the routes under verification).
`lockUntil` and `lastLogin` are milliseconds since the epoch. -/
structure UserRecord where
  id : UserId
  name : String := ""
  email : String := ""
  role : Role := .employee
  managerId : Option UserId := none
  isActive : Bool := true
  lastLogin : Option Nat := none
  loginAttempts : Nat := 0
  lockUntil : Option Nat := none
  department : Option String := none
  phoneNumber : Option String := none
  notificationSettings : NotifPrefs := {}
  twoFactorSecret : Option String := none
deriving DecidableEq

/-- Lockout policy defaults (User.js 128-129): `MAX_LOGIN_ATTEMPTS` falls back
to 5 and `LOCKOUT_TIME` to 1800000 ms (30 minutes) when the environment does
not override them. -/
def maxLoginAttempts : Nat := 5

def lockoutTime : Nat := 1800000

/-- `userSchema.virtual('isLocked')` (User.js 103-105):
`!!(this.lockUntil && this.lockUntil > Date.now())`. -/
def isLocked (u : UserRecord) (now : Nat) : Bool :=
  match u.lockUntil with
  | some t => decide (now < t)
  | none => false

/-- The guard of the first branch of `incLoginAttempts`:
`this.lockUntil && this.lockUntil < Date.now()`. -/
def lockExpired (u : UserRecord) (now : Nat) : Bool :=
  match u.lockUntil with
  | some t => decide (t < now)
  | none => false

/-- `userSchema.methods.incLoginAttempts` (User.js 127-145).  If a previous
lock has expired, restart the counter at 1 and clear the lock.  Otherwise
increment the counter, and when the new count reaches the threshold while the
account is not currently locked, set `lockUntil = now + lockoutTime`. -/
def incLoginAttempts (u : UserRecord) (now : Nat) : UserRecord :=
  if lockExpired u now then
    { u with lockUntil := none, loginAttempts := 1 }
  else if decide (maxLoginAttempts ≤ u.loginAttempts + 1) && !(isLocked u now) then
    { u with loginAttempts := u.loginAttempts + 1, lockUntil := some (now + lockoutTime) }
  else
    { u with loginAttempts := u.loginAttempts + 1 }

/-- `userSchema.methods.resetLoginAttempts` (User.js 148-152): `$unset` of
`loginAttempts` and `lockUntil`; reads then see the schema defaults
(0 and null). -/
def resetLoginAttempts (u : UserRecord) : UserRecord :=
  { u with loginAttempts := 0, lockUntil := none }

/-- Outcome of `POST /api/auth/login`. -/
inductive LoginResult where
  | invalidCredentials
  | accountLocked
  | accountInactive
  | success
deriving DecidableEq

/-- The audit payload the login route writes when no user matches the email
(auth.js 148-158): `user: null`, action `failed_login`, security category. -/
def failedLoginUnknownUserEntry (email ip : String) (now : Nat) : AuditEntry :=
  { user := none
    action := "failed_login"
    resource := "auth"
    details := [("email", email), ("reason", "user_not_found")]
    ipAddress := ip
    success := false
    severity := .medium
    category := .security
    createdAt := now }

/-- Audit payload for a failed login on an existing account (auth.js 168-178,
188-198 and 213-223 share this shape up to reason and severity). -/
def failedLoginKnownUserEntry (uid : UserId) (email ip reason : String)
    (sev : Severity) (now : Nat) : AuditEntry :=
  { user := some uid
    action := "failed_login"
    resource := "auth"
    details := [("email", email), ("reason", reason)]
    ipAddress := ip
    success := false
    severity := sev
    category := .security
    createdAt := now }

/-- Audit payload for a successful login (auth.js 244-252). -/
def loginOkEntry (uid : UserId) (email ip : String) (now : Nat) : AuditEntry :=
  { user := some uid
    action := "login"
    resource := "auth"
    details := [("email", email)]
    ipAddress := ip
    category := .security
    createdAt := now }

/-- `POST /api/auth/login` (auth.js 119-274) for a request that passed body
validation.  `user?` is the result of the email lookup, `pwOk` the outcome of
the bcrypt comparison (which the route only reaches on an unlocked, active
account).  Returns the HTTP-level outcome, the stored state of the user record
after the request, and the audit collection after the request (`dbOk` models
whether the audit write succeeds). -/
def loginRoute (user? : Option UserRecord) (pwOk : Bool) (email ip : String)
    (now : Nat) (logs : List AuditEntry) (dbOk : Bool) :
    LoginResult × Option UserRecord × List AuditEntry :=
  match user? with
  | none =>
    (.invalidCredentials, none, (logAction logs (failedLoginUnknownUserEntry email ip now) dbOk).1)
  | some u =>
    if isLocked u now then
      (.accountLocked, some u,
        (logAction logs (failedLoginKnownUserEntry u.id email ip "account_locked" .high now) dbOk).1)
    else if !u.isActive then
      (.accountInactive, some u,
        (logAction logs (failedLoginKnownUserEntry u.id email ip "account_inactive" .medium now) dbOk).1)
    else if !pwOk then
      (.invalidCredentials, some (incLoginAttempts u now),
        (logAction logs (failedLoginKnownUserEntry u.id email ip "invalid_password" .medium now) dbOk).1)
    else
      let u1 := if decide (0 < u.loginAttempts) then resetLoginAttempts u else u
      (.success, some { u1 with lastLogin := some now },
        (logAction logs (loginOkEntry u.id email ip now) dbOk).1)

/-- The request body of `PUT /api/tasks/:id` restricted to the fields its
validator chain mentions (tasks.js 344-350); an absent field is `none`.
Effort hours are modelled as `Nat` (the validator only requires a
non-negative number). -/
structure TaskPatch where
  title : Option String := none
  description : Option String := none
  deadline : Option Nat := none
  priority : Option Priority := none
  estimatedHours : Option Nat := none
  actualHours : Option Nat := none
  tags : Option (List String) := none
deriving DecidableEq

/-- `Object.keys(updates)` for a task patch. -/
def taskPatchKeys (p : TaskPatch) : List String :=
  (if p.title.isSome then ["title"] else []) ++
    (if p.description.isSome then ["description"] else []) ++
    (if p.deadline.isSome then ["deadline"] else []) ++
    (if p.priority.isSome then ["priority"] else []) ++
    (if p.estimatedHours.isSome then ["estimatedHours"] else []) ++
    (if p.actualHours.isSome then ["actualHours"] else []) ++
    (if p.tags.isSome then ["tags"] else [])

/-- express-validator chain of `PUT /api/tasks/:id`: optional trimmed length
checks on title (3..100) and description (10..1000); deadline format, priority
enum and numeric bounds are enforced by the types. -/
def taskPatchValid (p : TaskPatch) : Bool :=
  (match p.title with
   | none => true
   | some s => decide (3 ≤ s.length) && decide (s.length ≤ 100)) &&
  (match p.description with
   | none => true
   | some s => decide (10 ≤ s.length) && decide (s.length ≤ 1000))

/-- `Object.keys(updates).forEach(key => task[key] = updates[key])`
restricted to the validated fields. -/
def applyTaskPatch (t : Task) (p : TaskPatch) : Task :=
  { t with
    title := p.title.getD t.title
    description := p.description.getD t.description
    deadline := p.deadline.getD t.deadline
    priority := p.priority.getD t.priority
    estimatedHours := match p.estimatedHours with | some v => some v | none => t.estimatedHours
    actualHours := match p.actualHours with | some v => some v | none => t.actualHours
    tags := p.tags.getD t.tags }

/-- Edit permission of `PUT /api/tasks/:id` (tasks.js 377-380): super admin,
the task's `assignedBy`, or a manager whose id is the assignee's `managerId`.
The assignee themselves is not in this set unless they also match one of
these three cases. -/
def canEditTask (user : Actor) (task : Task) : Bool :=
  user.role == .super_admin || task.assignedBy == user.id ||
    (user.role == .manager && task.assignedToManagerId == some user.id)

/-- Allow-list of the employee branch of `PUT /api/tasks/:id` (tasks.js 391). -/
def employeeTaskFields : List String := ["actualHours"]

/-- Outcome of `PUT /api/tasks/:id`. -/
inductive TaskUpdateResult where
  | validationFailed
  | notFound
  | permissionDenied
  | ok (task : Task)
deriving DecidableEq

/-- `PUT /api/tasks/:id` (tasks.js 342-446): validate, 404 on missing task,
deny unless `canEditTask`, then — only when the caller is an employee who is
the task's assignee — restrict the patch to `actualHours`, then reject a
non-future deadline, then apply the patch field by field.  Note the employee
branch runs after `canEditTask`, which an assignee employee who is not
`assignedBy` already fails. -/
def updateTaskRoute (user : Actor) (task? : Option Task) (p0 : TaskPatch)
    (now : Nat) : TaskUpdateResult :=
  let p := { p0 with title := p0.title.map String.trim,
                     description := p0.description.map String.trim }
  if !taskPatchValid p then .validationFailed
  else
    match task? with
    | none => .notFound
    | some task =>
      if !canEditTask user task then .permissionDenied
      else if user.role == .employee && task.assignedTo == user.id &&
          (taskPatchKeys p).any (fun k => !employeeTaskFields.contains k) then
        .permissionDenied
      else if (match p.deadline with | some dl => decide (dl ≤ now) | none => false) then
        .validationFailed
      else
        .ok (applyTaskPatch task p)

/-- The request body of `PUT /api/users/:id` (users.js 242-311) restricted to
the fields the handler touches.  Email format validation (`isEmail` with
`normalizeEmail`) is abstracted: patches are taken post-sanitisation. -/
structure UserPatch where
  name : Option String := none
  email : Option String := none
  role : Option Role := none
  department : Option String := none
  phoneNumber : Option String := none
  isActive : Option Bool := none
  notificationSettings : Option NotifPrefs := none
  password : Option String := none
  loginAttempts : Option Nat := none
  lockUntil : Option Nat := none
  twoFactorSecret : Option String := none
deriving DecidableEq

/-- `Object.keys(updates)` for a user patch. -/
def userPatchKeys (p : UserPatch) : List String :=
  (if p.name.isSome then ["name"] else []) ++
    (if p.email.isSome then ["email"] else []) ++
    (if p.role.isSome then ["role"] else []) ++
    (if p.department.isSome then ["department"] else []) ++
    (if p.phoneNumber.isSome then ["phoneNumber"] else []) ++
    (if p.isActive.isSome then ["isActive"] else []) ++
    (if p.notificationSettings.isSome then ["notificationSettings"] else []) ++
    (if p.password.isSome then ["password"] else []) ++
    (if p.loginAttempts.isSome then ["loginAttempts"] else []) ++
    (if p.lockUntil.isSome then ["lockUntil"] else []) ++
    (if p.twoFactorSecret.isSome then ["twoFactorSecret"] else [])

/-- Validator chain of `PUT /api/users/:id`: optional name length 2..50 and
department length at most 50; role and isActive are enum/boolean-checked by
the types. -/
def userPatchValid (p : UserPatch) : Bool :=
  (match p.name with
   | none => true
   | some s => decide (2 ≤ s.length) && decide (s.length ≤ 50)) &&
  (match p.department with
   | none => true
   | some s => decide (s.length ≤ 50))

/-- users.js 266-269: `delete updates.password; delete updates.loginAttempts;
delete updates.lockUntil; delete updates.twoFactorSecret`. -/
def stripSensitive (p : UserPatch) : UserPatch :=
  { p with password := none, loginAttempts := none, lockUntil := none,
           twoFactorSecret := none }

/-- Allow-list of the employee branch of `PUT /api/users/:id` (users.js 274). -/
def employeeUserFields : List String := ["name", "phoneNumber", "notificationSettings"]

/-- `$set` application of a user patch (`findByIdAndUpdate`). -/
def applyUserPatch (u : UserRecord) (p : UserPatch) : UserRecord :=
  { u with
    name := p.name.getD u.name
    email := p.email.getD u.email
    role := p.role.getD u.role
    department := match p.department with | some v => some v | none => u.department
    phoneNumber := match p.phoneNumber with | some v => some v | none => u.phoneNumber
    isActive := p.isActive.getD u.isActive
    notificationSettings := p.notificationSettings.getD u.notificationSettings
    lockUntil := match p.lockUntil with | some v => some v | none => u.lockUntil
    loginAttempts := p.loginAttempts.getD u.loginAttempts
    twoFactorSecret := match p.twoFactorSecret with | some v => some v | none => u.twoFactorSecret }

/-- Outcome of `PUT /api/users/:id`. -/
inductive UserUpdateResult where
  | validationFailed
  | notFound
  | permissionDenied
  | emailExists
  | ok (user : UserRecord)
deriving DecidableEq

/-- `PUT /api/users/:id` (users.js 242-348): validate, drop the sensitive
fields, deny an employee touching anything besides their own basic fields,
silently delete `role` and `isActive` from a manager's payload, reject a
duplicate email (`emailTaken` models the uniqueness query), 404 on a missing
target, then apply the remaining patch. -/
def updateUserRoute (actor : Actor) (targetId : UserId) (target? : Option UserRecord)
    (p0 : UserPatch) (emailTaken : Bool) : UserUpdateResult :=
  if !userPatchValid p0 then .validationFailed
  else
    let p := stripSensitive p0
    if actor.role == .employee &&
        ((userPatchKeys p).any (fun k => !employeeUserFields.contains k) ||
          !(targetId == actor.id)) then
      .permissionDenied
    else
      let p := if actor.role == .manager then { p with role := none, isActive := none } else p
      if p.email.isSome && emailTaken then .emailExists
      else
        match target? with
        | none => .notFound
        | some target => .ok (applyUserPatch target p)

/-- Audit payload of a successful status change (tasks.js 584-598).  The
action string is interpolated from the status, so `pending` and `in_progress`
produce values outside the audit action enum. -/
def statusAuditEntry (user : Actor) (t : Task) (status : TaskStatus)
    (comment : Option String) (ip : String) (now : Nat) : AuditEntry :=
  { user := some user.id
    action := "task_" ++ (match status with
      | .pending => "pending"
      | .in_progress => "in_progress"
      | .completed => "completed"
      | .approved => "approved"
      | .rejected => "rejected")
    resource := "task"
    details := [("taskTitle", t.title), ("comment", comment.getD "")]
    ipAddress := ip
    category := .data
    createdAt := now }

/-- `PUT /api/tasks/:id/status` together with its audit write: on success the
route awaits `AuditLog.logAction` (whose failure is swallowed inside
`logAction`) and then responds; error branches do not log. -/
def updateTaskStatusRouteAudit (user : Actor) (task? : Option Task) (status : TaskStatus)
    (comment rejectionReason : Option String) (ip : String) (now : Nat)
    (logs : List AuditEntry) (dbOk : Bool) : StatusRouteResult × List AuditEntry :=
  match updateTaskStatusRoute user task? status comment rejectionReason now with
  | .ok t =>
    (.ok t, (logAction logs (statusAuditEntry user t status (comment.map String.trim) ip now) dbOk).1)
  | r => (r, logs)

/-! Concrete fixtures used by counterexamples and witnesses. -/

def saActor : Actor := { id := 1, role := .super_admin }

def mgrActor : Actor := { id := 2, role := .manager }

def empActor : Actor := { id := 3, role := .employee }

/-- A pending task assigned by manager 2 to employee 3 (whose `managerId` is 2). -/
def pendTask : Task := { assignedBy := 2, assignedTo := 3, assignedToManagerId := some 2 }

/-- The same task in status `completed`. -/
def compTask : Task :=
  { assignedBy := 2, assignedTo := 3, assignedToManagerId := some 2, status := .completed }

/-- A completed task whose `completedAt` is already set. -/
def doneTask : Task :=
  { assignedBy := 2, assignedTo := 3, assignedToManagerId := some 2,
    status := .completed, completedAt := some 9 }

/-- `updateStatus` (with its save hook) never touches `rejectionReason`. -/
theorem updateStatus_rejectionReason (t : Task) (s : TaskStatus) (u : UserId)
    (c : Option String) (now : Nat) :
    (t.updateStatus s u c now).rejectionReason = t.rejectionReason := by
  simp only [Task.updateStatus]
  split <;> split <;> split <;> split <;> rfl

/-- Claim C1, counterexample to the claim as stated: on a task whose current
status is `pending`, requesting `approved` as SuperAdmin does not yield
`InvalidTransition` — the call succeeds, because the status route never
consults the current status. -/
theorem C1_counterexample :
    (updateTaskStatusRoute saActor (some pendTask) .approved none none 5).isOk = true := by
  rfl

/-- Claim C1 (amended): for a found task and inputs passing field validation,
`TransitionTask` succeeds iff the actor is in the allowed-actor set for the
requested target status; the task's current status plays no role (the
permission predicate is invariant under changing it), so there is no
transition table and no `InvalidTransition` outcome. -/
theorem C1_amended (user : Actor) (task : Task) (status : TaskStatus)
    (comment reason : Option String) (now : Nat)
    (hc : optLenLe (comment.map String.trim) 200 = true)
    (hr : optLenLe (reason.map String.trim) 500 = true) :
    (updateTaskStatusRoute user (some task) status comment reason now).isOk
        = hasStatusPermission user task status ∧
    ∀ s0 : TaskStatus,
      hasStatusPermission user { task with status := s0 } status
        = hasStatusPermission user task status := by
  constructor
  · simp only [updateTaskStatusRoute, hc, hr, Bool.and_self, Bool.not_true]
    cases h : hasStatusPermission user task status <;>
      simp [h, StatusRouteResult.isOk]
  · intro s0
    cases status <;> rfl

/-- Witness for `C1_amended` at a concrete input. -/
theorem C1_witness :
    (updateTaskStatusRoute saActor (some pendTask) .completed none none 5).isOk
        = hasStatusPermission saActor pendTask .completed ∧
    ∀ s0 : TaskStatus,
      hasStatusPermission saActor { pendTask with status := s0 } .completed
        = hasStatusPermission saActor pendTask .completed :=
  C1_amended saActor pendTask .completed none none 5 rfl rfl

/-- Claim C2, counterexample to the claim as stated: rejecting a `completed`
task with no `rejectionReason`, as an actor permitted to reject, does not fail
with `ValidationFailed` — it succeeds and stores no reason. -/
theorem C2_counterexample :
    (updateTaskStatusRoute mgrActor (some compTask) .rejected none none 7).isOk = true ∧
    ((updateTaskStatusRoute mgrActor (some compTask) .rejected none none 7).resultTask.map
        Task.rejectionReason) = some none :=
  ⟨rfl, rfl⟩

/-- Claim C2 (amended): for an actor permitted to reject, a `rejected` request
with a missing reason succeeds and leaves `rejectionReason` unchanged (there
is no missing-reason validation), while a request carrying a non-empty reason
of valid length succeeds and stores the trimmed reason. -/
theorem C2_amended (user : Actor) (task : Task) (comment : Option String) (now : Nat)
    (hperm : hasStatusPermission user task .rejected = true)
    (hc : optLenLe (comment.map String.trim) 200 = true) :
    (updateTaskStatusRoute user (some task) .rejected comment none now
        = .ok (task.updateStatus .rejected user.id (comment.map String.trim) now)) ∧
    (task.updateStatus .rejected user.id (comment.map String.trim) now).rejectionReason
        = task.rejectionReason ∧
    ∀ r : String, r.trim ≠ "" → r.trim.length ≤ 500 →
      updateTaskStatusRoute user (some task) .rejected comment (some r) now
          = .ok (({ task with rejectionReason := some r.trim }).updateStatus .rejected
              user.id (comment.map String.trim) now) ∧
      (({ task with rejectionReason := some r.trim }).updateStatus .rejected user.id
          (comment.map String.trim) now).rejectionReason = some r.trim := by
  have hc2 := hc
  simp only [optLenLe] at hc2
  refine ⟨?_, updateStatus_rejectionReason .., ?_⟩
  · simp [updateTaskStatusRoute, hc2, hperm, optLenLe, optTruthy]
  · intro r hr hlen
    constructor
    · simp [updateTaskStatusRoute, hc2, hperm, optLenLe, optTruthy, hlen, hr]
    · rw [updateStatus_rejectionReason]

/-- Witness for `C2_amended` at a concrete input. -/
theorem C2_witness :
    (updateTaskStatusRoute mgrActor (some compTask) .rejected none none 11
        = .ok (compTask.updateStatus .rejected mgrActor.id none 11)) ∧
    (compTask.updateStatus .rejected mgrActor.id none 11).rejectionReason
        = compTask.rejectionReason ∧
    ∀ r : String, r.trim ≠ "" → r.trim.length ≤ 500 →
      updateTaskStatusRoute mgrActor (some compTask) .rejected none (some r) 11
          = .ok (({ compTask with rejectionReason := some r.trim }).updateStatus .rejected
              mgrActor.id none 11) ∧
      (({ compTask with rejectionReason := some r.trim }).updateStatus .rejected mgrActor.id
          none 11).rejectionReason = some r.trim :=
  C2_amended mgrActor compTask none 11 rfl rfl

/-- Claim C3, counterexample to the claim as stated: approving an already
approved task overwrites `approvedAt` — after a first approval at time 10 and
a second at time 20, the stored timestamp is 20, not the original 10. -/
theorem C3_counterexample :
    (pendTask.updateStatus .approved 1 none 10).approvedAt = some 10 ∧
    ((pendTask.updateStatus .approved 1 none 10).updateStatus .approved 1 none 20).approvedAt
        = some 20 :=
  ⟨rfl, rfl⟩

/-- Claim C3 (amended): `completedAt` is set at the first transition into
`completed` and, once non-null, is never modified by any later status update;
`approvedAt`, by contrast, is overwritten with the current time on every
`updateStatus` call whose target is `approved`, including repeated approvals. -/
theorem C3_amended :
    (∀ (t : Task) (s : TaskStatus) (u : UserId) (c : Option String) (now x : Nat),
        t.completedAt = some x → (t.updateStatus s u c now).completedAt = some x) ∧
    (∀ (t : Task) (u : UserId) (c : Option String) (now : Nat),
        t.status ≠ .completed → t.completedAt = none →
        (t.updateStatus .completed u c now).completedAt = some now) ∧
    (∀ (t : Task) (u : UserId) (c : Option String) (now : Nat),
        (t.updateStatus .approved u c now).approvedAt = some now) := by
  refine ⟨?_, ?_, ?_⟩
  · intro t s u c now x h
    simp [Task.updateStatus, apply_ite Task.completedAt, h]
  · intro t u c now hst h
    simp [Task.updateStatus, apply_ite Task.completedAt, h, hst]
  · intro t u c now
    simp [Task.updateStatus, apply_ite Task.approvedAt]

/-- Witness for `C3_amended` at concrete inputs. -/
theorem C3_witness :
    (doneTask.updateStatus .pending 1 none 40).completedAt = some 9 ∧
    (pendTask.updateStatus .completed 3 none 11).completedAt = some 11 ∧
    (pendTask.updateStatus .approved 2 none 12).approvedAt = some 12 :=
  ⟨C3_amended.1 doneTask .pending 1 none 40 9 rfl,
   C3_amended.2.1 pendTask 3 none 11 (by decide) rfl,
   C3_amended.2.2 pendTask 2 none 12⟩

/-- Claim C4: starting from a fresh, active account, five consecutive failed
login attempts each return `InvalidCredentials` while incrementing the
counter; the fifth sets `lockUntil = t5 + lockoutTime` (30 minutes).  A sixth
attempt before `lockUntil` returns `AccountLocked` for either password
outcome, with the stored account untouched (the password branch is never
reached).  Once `lockUntil` has passed, a correct-password attempt succeeds
and stores the account with `loginAttempts = 0` and `lockUntil` cleared. -/
theorem C4_lockout (u0 : UserRecord) (h0 : u0.loginAttempts = 0)
    (hl : u0.lockUntil = none) (ha : u0.isActive = true)
    (email ip : String) (logs : List AuditEntry) (dbOk : Bool)
    (t1 t2 t3 t4 t5 t6 t7 : Nat)
    (h6 : t6 < t5 + lockoutTime) (h7 : t5 + lockoutTime ≤ t7) :
    ((loginRoute (some u0) false email ip t1 logs dbOk).1 = .invalidCredentials ∧
      (loginRoute (some u0) false email ip t1 logs dbOk).2.1
        = some { u0 with loginAttempts := 1 }) ∧
    ((loginRoute (some { u0 with loginAttempts := 1 }) false email ip t2 logs dbOk).1
        = .invalidCredentials ∧
      (loginRoute (some { u0 with loginAttempts := 1 }) false email ip t2 logs dbOk).2.1
        = some { u0 with loginAttempts := 2 }) ∧
    ((loginRoute (some { u0 with loginAttempts := 2 }) false email ip t3 logs dbOk).1
        = .invalidCredentials ∧
      (loginRoute (some { u0 with loginAttempts := 2 }) false email ip t3 logs dbOk).2.1
        = some { u0 with loginAttempts := 3 }) ∧
    ((loginRoute (some { u0 with loginAttempts := 3 }) false email ip t4 logs dbOk).1
        = .invalidCredentials ∧
      (loginRoute (some { u0 with loginAttempts := 3 }) false email ip t4 logs dbOk).2.1
        = some { u0 with loginAttempts := 4 }) ∧
    ((loginRoute (some { u0 with loginAttempts := 4 }) false email ip t5 logs dbOk).1
        = .invalidCredentials ∧
      (loginRoute (some { u0 with loginAttempts := 4 }) false email ip t5 logs dbOk).2.1
        = some { u0 with loginAttempts := 5, lockUntil := some (t5 + lockoutTime) }) ∧
    (∀ pw : Bool,
      (loginRoute (some { u0 with loginAttempts := 5, lockUntil := some (t5 + lockoutTime) })
          pw email ip t6 logs dbOk).1 = .accountLocked ∧
      (loginRoute (some { u0 with loginAttempts := 5, lockUntil := some (t5 + lockoutTime) })
          pw email ip t6 logs dbOk).2.1
        = some { u0 with loginAttempts := 5, lockUntil := some (t5 + lockoutTime) }) ∧
    ((loginRoute (some { u0 with loginAttempts := 5, lockUntil := some (t5 + lockoutTime) })
        true email ip t7 logs dbOk).1 = .success ∧
      (loginRoute (some { u0 with loginAttempts := 5, lockUntil := some (t5 + lockoutTime) })
          true email ip t7 logs dbOk).2.1
        = some { u0 with loginAttempts := 0, lockUntil := none, lastLogin := some t7 }) := by
  obtain ⟨uid, nm, em, rl, mid, act, ll, la, lu, dep, ph, ns, tfs⟩ := u0
  dsimp only at h0 hl ha
  subst h0 hl ha
  have h6' : t6 < t5 + lockoutTime := h6
  have h7' : ¬ (t7 < t5 + lockoutTime) := by omega
  refine ⟨⟨?_, ?_⟩, ⟨?_, ?_⟩, ⟨?_, ?_⟩, ⟨?_, ?_⟩, ⟨?_, ?_⟩, ?_, ⟨?_, ?_⟩⟩ <;>
    simp [loginRoute, incLoginAttempts, isLocked, lockExpired, resetLoginAttempts,
      maxLoginAttempts, h6', h7']

/-- A fresh account for the C4 witness. -/
def u0c : UserRecord := { id := 7 }

/-- Witness for `C4_lockout`: the post-expiry conjunct at concrete times. -/
theorem C4_witness :
    (loginRoute (some { u0c with loginAttempts := 5, lockUntil := some (5 + lockoutTime) })
        true "e" "ip" 1800005 [] true).1 = .success ∧
    (loginRoute (some { u0c with loginAttempts := 5, lockUntil := some (5 + lockoutTime) })
        true "e" "ip" 1800005 [] true).2.1
      = some { u0c with loginAttempts := 0, lockUntil := none, lastLogin := some 1800005 } :=
  (C4_lockout u0c rfl rfl rfl "e" "ip" [] true 1 2 3 4 5 6 1800005
    (by decide) (by decide)).2.2.2.2.2.2

/-- Claim C5: audit-write failures never change what the caller returns.
`logAction` swallows any failed write and yields `null`; consequently the
status route's response, the login route's outcome and stored account, and
the cleanup route's response are identical whether the audit write succeeds
(`dbOk = true`) or fails (`dbOk = false`). -/
theorem C5_audit_isolation :
    (∀ (logs : List AuditEntry) (e : AuditEntry), logAction logs e false = (logs, none)) ∧
    (∀ (user : Actor) (task? : Option Task) (status : TaskStatus)
        (comment reason : Option String) (ip : String) (now : Nat) (logs : List AuditEntry),
        (updateTaskStatusRouteAudit user task? status comment reason ip now logs true).1
          = (updateTaskStatusRouteAudit user task? status comment reason ip now logs false).1) ∧
    (∀ (user? : Option UserRecord) (pwOk : Bool) (email ip : String) (now : Nat)
        (logs : List AuditEntry),
        (loginRoute user? pwOk email ip now logs true).1
            = (loginRoute user? pwOk email ip now logs false).1 ∧
        (loginRoute user? pwOk email ip now logs true).2.1
            = (loginRoute user? pwOk email ip now logs false).2.1) ∧
    (∀ (actorId : UserId) (days? : Option Nat) (ip : String) (now : Nat)
        (logs : List AuditEntry),
        (auditCleanupRoute actorId days? ip now logs true).1
          = (auditCleanupRoute actorId days? ip now logs false).1) := by
  refine ⟨?_, ?_, ?_, ?_⟩
  · intro logs e
    simp [logAction]
  · intro user task? status comment reason ip now logs
    unfold updateTaskStatusRouteAudit
    cases updateTaskStatusRoute user task? status comment reason now <;> rfl
  · intro user? pwOk email ip now logs
    rcases user? with _ | u
    · exact ⟨rfl, rfl⟩
    · constructor <;> simp only [loginRoute] <;> split_ifs <;> rfl
  · intro actorId days? ip now logs
    simp only [auditCleanupRoute]
    split_ifs <;> rfl

/-- Claim C6, evaluation at the failing input: employee 3 is the assignee of
`pendTask` (assigned by manager 2) and submits a patch containing only
`actualHours`; the route denies it, because the `canEdit` gate (super admin /
`assignedBy` / owning manager) runs before the employee `actualHours`
allow-list and does not include the assignee, leaving that branch dead for a
pure assignee. -/
theorem C6_failing_input :
    updateTaskRoute empActor (some pendTask) { actualHours := some 5 } 0
        = .permissionDenied ∧
    canEditTask empActor pendTask = false :=
  ⟨rfl, rfl⟩

/-- A security-category entry outside the route's trailing time window. -/
def oldSecurityEntry : AuditEntry :=
  { user := some 1, action := "login", resource := "auth", ipAddress := "ip",
    success := true, severity := .low, category := .security, createdAt := 0 }

/-- Claim C7, counterexample to the claim as stated: `oldSecurityEntry`
satisfies the four-way disjunction (category = security), yet the security
query over the one-entry collection returns nothing, because the route
intersects the disjunction with `createdAt ≥ now - hours * 3600000`. -/
theorem C7_counterexample :
    securityRelevantSpec oldSecurityEntry = true ∧
    securityLogsQuery 24 86400001 [oldSecurityEntry] = [] :=
  ⟨rfl, rfl⟩

/-- Claim C7 (amended): the route-level security query matches exactly the
entries satisfying the four-way disjunction AND created within the trailing
window; the model-level `getSecurityLogs` static uses only the three-way
disjunction, without the severity clause. -/
theorem C7_amended (since : Int) (e : AuditEntry) (hours : Nat) (now : Int)
    (logs : List AuditEntry) :
    securityRoutePred since e
        = (securityRelevantSpec e && decide (since ≤ (e.createdAt : Int))) ∧
    (e ∈ securityLogsQuery hours now logs ↔
      e ∈ logs ∧ securityRelevantSpec e = true ∧
        now - hours * 3600000 ≤ (e.createdAt : Int)) ∧
    getSecurityLogsPred e
        = (e.category == .security || securityActionList.contains e.action ||
            e.success == false) := by
  refine ⟨rfl, ?_, rfl⟩
  simp [securityLogsQuery, List.mem_filter, securityRoutePred, securityRelevantSpec,
    and_assoc]

/-- Claim C10: the audit payload the login route builds for a failed login
against an unknown email carries `user: null`; schema validation rejects it,
`logAction` returns `null`, and the audit trail is unchanged — whether or not
the database write would have succeeded — while the route still answers
`InvalidCredentials`. -/
theorem C10_unknown_user_not_logged (email ip : String) (now : Nat)
    (logs : List AuditEntry) (dbOk : Bool) (pwOk : Bool) :
    validEntry (failedLoginUnknownUserEntry email ip now) = false ∧
    logAction logs (failedLoginUnknownUserEntry email ip now) dbOk = (logs, none) ∧
    (loginRoute none pwOk email ip now logs dbOk).2.2 = logs ∧
    (loginRoute none pwOk email ip now logs dbOk).1 = .invalidCredentials := by
  have hv : validEntry (failedLoginUnknownUserEntry email ip now) = false := by
    simp [validEntry, failedLoginUnknownUserEntry]
  refine ⟨hv, ?_, ?_, rfl⟩
  · simp [logAction, hv]
  · simp [loginRoute, logAction, hv]

/-- Claim C8: with a retention parameter below 30 days the cleanup is
rejected; with an accepted parameter the stored collection afterwards is
exactly the entries that are not (strictly older than the cutoff with
severity outside high/critical), plus exactly one appended audit entry
describing the cleanup (cutoff, count deleted, retention days).  Every
high/critical entry and every entry at or after the cutoff survives, and
every low/medium entry strictly older than the cutoff is removed. -/
theorem C8_cleanup (actorId : UserId) (d : Nat) (ip : String) (now : Nat)
    (logs : List AuditEntry) (hd : 30 ≤ d) (hd2 : d ≤ 365) (hip : ip ≠ "") :
    (∀ d0 : Nat, d0 < 30 →
        auditCleanupRoute actorId (some d0) ip now logs true = (.validationFailed, logs)) ∧
    (auditCleanupRoute actorId (some d) ip now logs true).2
        = logs.filter (keepEntry ((now : Int) - d * 86400000))
            ++ [cleanupAuditEntry actorId ((now : Int) - d * 86400000)
                  (logs.filter (delEntry ((now : Int) - d * 86400000))).length d ip now] ∧
    (auditCleanupRoute actorId (some d) ip now logs true).1
        = .ok (logs.filter (delEntry ((now : Int) - d * 86400000))).length d ∧
    (∀ e, e ∈ logs →
        (e.severity = .high ∨ e.severity = .critical ∨
          (now : Int) - d * 86400000 ≤ (e.createdAt : Int)) →
        e ∈ (auditCleanupRoute actorId (some d) ip now logs true).2) ∧
    (∀ e, e ∈ logs → (e.createdAt : Int) < (now : Int) - d * 86400000 →
        e.severity ≠ .high → e.severity ≠ .critical →
        e ∉ logs.filter (keepEntry ((now : Int) - d * 86400000))) := by
  have hv : cleanupValidDays (some d) = true := by
    simp [cleanupValidDays]; omega
  have hipb : (ip == "") = false := beq_eq_false_iff_ne.mpr hip
  have hvalid : ∀ cnt : Nat, validEntry (cleanupAuditEntry actorId ((now : Int) - d * 86400000)
      cnt d ip now) = true := by
    intro cnt
    simp [validEntry, cleanupAuditEntry, hipb]
    decide
  have h2 : (auditCleanupRoute actorId (some d) ip now logs true).2
      = logs.filter (keepEntry ((now : Int) - d * 86400000))
          ++ [cleanupAuditEntry actorId ((now : Int) - d * 86400000)
                (logs.filter (delEntry ((now : Int) - d * 86400000))).length d ip now] := by
    simp [auditCleanupRoute, hv, logAction, hvalid]
  refine ⟨?_, h2, ?_, ?_, ?_⟩
  · intro d0 hd0
    have : ¬ (30 ≤ d0) := by omega
    simp [auditCleanupRoute, cleanupValidDays, this]
  · simp [auditCleanupRoute, hv, logAction, hvalid]
  · intro e he hprop
    rw [h2]
    apply List.mem_append_left
    rw [List.mem_filter]
    refine ⟨he, ?_⟩
    rcases hprop with h | h | h
    · simp [keepEntry, delEntry, h]
    · simp [keepEntry, delEntry, h]
    · have h' : ¬ ((e.createdAt : Int) < (now : Int) - d * 86400000) := by omega
      simp [keepEntry, delEntry, h']
  · intro e he hold hh hc
    rw [List.mem_filter]
    rintro ⟨-, hkeep⟩
    have hhb : (e.severity == Severity.high) = false := beq_eq_false_iff_ne.mpr hh
    have hcb : (e.severity == Severity.critical) = false := beq_eq_false_iff_ne.mpr hc
    simp [keepEntry, delEntry, hhb, hcb, hold] at hkeep

/-- A low-severity entry older than a 30-day cutoff. -/
def oldLowEntry : AuditEntry :=
  { user := some 1, action := "login", resource := "auth", ipAddress := "ip", createdAt := 5 }

/-- A critical-severity entry older than a 30-day cutoff. -/
def oldCriticalEntry : AuditEntry :=
  { user := some 1, action := "login", resource := "auth", ipAddress := "ip",
    severity := .critical, createdAt := 3 }

/-- Witness for `C8_cleanup`: the post-state equation at a concrete call
(30-day retention, cutoff 10, one deletable and one critical entry). -/
theorem C8_witness :
    (auditCleanupRoute 1 (some 30) "ip" 2592000010 [oldLowEntry, oldCriticalEntry] true).2
        = [oldLowEntry, oldCriticalEntry].filter
              (keepEntry (((2592000010 : Nat) : Int) - 30 * 86400000))
            ++ [cleanupAuditEntry 1 (((2592000010 : Nat) : Int) - 30 * 86400000)
                  ([oldLowEntry, oldCriticalEntry].filter
                    (delEntry (((2592000010 : Nat) : Int) - 30 * 86400000))).length
                  30 "ip" 2592000010] :=
  (C8_cleanup 1 30 "ip" 2592000010 [oldLowEntry, oldCriticalEntry]
    (by decide) (by decide) (by decide)).2.1

/-- Claim C9: when the caller is a manager whose patch passes validation and
whose email change (if any) is not a duplicate, the update succeeds with
`role` and `isActive` silently removed from the payload before application —
the target keeps both fields — while the remaining permitted fields (name,
phone number, department, ...) are applied. -/
theorem C9_manager_strip (actor : Actor) (targetId : UserId) (target : UserRecord)
    (p : UserPatch) (emailTaken : Bool)
    (hrole : actor.role = .manager)
    (hv : userPatchValid p = true)
    (hemail : p.email = none ∨ emailTaken = false) :
    updateUserRoute actor targetId (some target) p emailTaken
        = .ok (applyUserPatch target
            { stripSensitive p with role := none, isActive := none }) ∧
    (applyUserPatch target { stripSensitive p with role := none, isActive := none }).role
        = target.role ∧
    (applyUserPatch target { stripSensitive p with role := none, isActive := none }).isActive
        = target.isActive ∧
    (applyUserPatch target { stripSensitive p with role := none, isActive := none }).name
        = p.name.getD target.name ∧
    (applyUserPatch target { stripSensitive p with role := none, isActive := none }).phoneNumber
        = (match p.phoneNumber with | some v => some v | none => target.phoneNumber) ∧
    (applyUserPatch target { stripSensitive p with role := none, isActive := none }).department
        = (match p.department with | some v => some v | none => target.department) := by
  refine ⟨?_, ?_, ?_, ?_, ?_, ?_⟩
  · rcases hemail with h | h <;>
      simp [updateUserRoute, hv, hrole, stripSensitive, h]
  all_goals simp [applyUserPatch, stripSensitive]

/-- The C9 witness target: an employee on manager 2's team. -/
def targetUserC9 : UserRecord :=
  { id := 9, name := "Old", role := .employee, managerId := some 2 }

/-- The C9 witness patch: tries to change role and isActive alongside
permitted fields. -/
def patchC9 : UserPatch :=
  { name := some "NewName", role := some .manager, isActive := some false,
    department := some "Sales" }

/-- Witness for `C9_manager_strip` at a concrete input. -/
theorem C9_witness :
    updateUserRoute mgrActor 9 (some targetUserC9) patchC9 false
        = .ok (applyUserPatch targetUserC9
            { stripSensitive patchC9 with role := none, isActive := none }) :=
  (C9_manager_strip mgrActor 9 targetUserC9 patchC9 false rfl (by decide) (Or.inl rfl)).1

end TaskMgmt
